import Mathlib

/-!
# Verification of the asana-ingest core (`src/types.ts`)

Shallow embedding of the repository's core logic:

* `extractTaskGid` — the identifier resolver (`src/types.ts`, `extractTaskGid`);
* `processTask` — the recursive tree-ingestion engine (`src/types.ts`,
  `processTask`), embedded with an explicit fuel parameter for the
  gid-driven recursion, an explicit log-sink state, and an explicit trace
  of the remote reads it issues;
* `generateMarkdown` — the document renderer (`src/types.ts`,
  `generateMarkdown` and its inner `renderSubtasks`).

The remote service and the browser's `URL` / locale date formatting are
environments the code runs against; they are modelled as explicit
parameters (`AsanaEnv`, `parseURL`, `RenderEnv`).  String scanning is
carried out on `List Char` (via `String.toList`) so that every definition
evaluates by kernel reduction; the list-level operations mirror the
JavaScript string methods they stand for.
-/

namespace AsanaIngest

/-! ## Identifier resolver (`extractTaskGid`) -/

/-- Model of `String.prototype.trim`: strip whitespace from both ends. -/
def trimChars (l : List Char) : List Char :=
  ((l.dropWhile Char.isWhitespace).reverse.dropWhile Char.isWhitespace).reverse

/-- Model of the JavaScript test `/^\d+$/.test(s)`: the character run is
non-empty and consists entirely of decimal digits. -/
def digitsOnly (l : List Char) : Bool :=
  !l.isEmpty && l.all Char.isDigit

/-- Substring containment, as in `String.prototype.includes`. -/
def listContains (pat : List Char) : List Char → Bool
  | [] => pat.isEmpty
  | c :: rest => pat.isPrefixOf (c :: rest) || listContains pat rest

/-- Split at the first occurrence of `pat`, returning the pieces before and
after it; `none` when `pat` does not occur. -/
def splitFirstOn (pat : List Char) : List Char → Option (List Char × List Char)
  | [] => if pat.isEmpty then some ([], []) else none
  | c :: rest =>
    if pat.isPrefixOf (c :: rest) then some ([], (c :: rest).drop pat.length)
    else
      match splitFirstOn pat rest with
      | some (before, after) => some (c :: before, after)
      | none => none

/-- Split on a separator character, as `String.prototype.split` does
(keeping empty pieces; the resolver filters them out afterwards). -/
def splitOnChar (sep : Char) : List Char → List (List Char)
  | [] => [[]]
  | c :: rest =>
    let r := splitOnChar sep rest
    if c == sep then [] :: r
    else
      match r with
      | [] => [[c]]
      | h :: t => (c :: h) :: t

/-- The two observable fields of a parsed URL that `extractTaskGid` reads. -/
structure ParsedURL where
  hostname : List Char
  pathname : List Char
deriving Repr, DecidableEq

/-- Simplified model of the browser's `new URL(s)` parser, covering the
shapes the resolver feeds it: a `scheme://authority/path` string parses to
its hostname (authority up to the first `:`) and pathname; a string with no
`://`, an empty or non-alphabetic scheme, or an empty hostname fails to
parse (the browser parser throws there as well), as does a forbidden host
code point (whitespace and WHATWG's forbidden set) or a non-numeric port.
Percent-decoding, path normalisation and userinfo handling are not
modelled; no claim depends on them. -/
def validHostChar (c : Char) : Bool :=
  !(c.isWhitespace || c == '#' || c == '/' || c == ':' || c == '?' ||
    c == '@' || c == '[' || c == '\\' || c == ']' || c == '^' || c == '|' || c == '<' || c == '>')

/-- See `validHostChar`; the simplified `new URL` model. -/
def parseURL (l : List Char) : Option ParsedURL :=
  match splitFirstOn "://".toList l with
  | none => none
  | some (scheme, rest) =>
    if scheme.isEmpty || !scheme.all Char.isAlpha then none
    else
      let authority := rest.takeWhile (fun c => c != '/' && c != '?' && c != '#')
      let hostname := authority.takeWhile (fun c => c != ':')
      let port := authority.drop (hostname.length + 1)
      if hostname.isEmpty || !hostname.all validHostChar || !port.all Char.isDigit then none
      else some ⟨hostname, (rest.drop authority.length).takeWhile (fun c => c != '?' && c != '#')⟩

/-- One attempt of the fallback regex `/asana\.com\/0\/[^\/]+\/(\d+)/` at a
fixed start position: the literal `asana.com/0/`, then a non-empty run of
non-slash characters, then `/`, then a non-empty digit run (the capture).
Greedy matching with backtracking degenerates to exactly this shape: only
the maximal non-slash run can be followed by a `/`. -/
def fallbackMatchAt (l : List Char) : Option String :=
  if "asana.com/0/".toList.isPrefixOf l then
    let r := l.drop 12
    let ctx := r.takeWhile (fun c => c != '/')
    if ctx.isEmpty then none
    else
      match r.drop ctx.length with
      | '/' :: r2 =>
        let ds := r2.takeWhile Char.isDigit
        if ds.isEmpty then none else some (String.mk ds)
      | _ => none
  else none

/-- Leftmost-match scan of `cleanUrl.match(/asana\.com\/0\/[^\/]+\/(\d+)/)`:
try every start position left to right, return the first capture. -/
def fallbackScan : List Char → Option String
  | [] => none
  | c :: rest =>
    match fallbackMatchAt (c :: rest) with
    | some d => some d
    | none => fallbackScan rest

/-- The URL-parsing branch of `extractTaskGid` (step 2 of the source):
parse `urlStr`; on success reject a hostname not containing `asana.com`,
otherwise return the last purely-numeric path segment; fall through to the
fallback regex on parse failure or when no numeric segment exists. -/
def urlBranch (cleanUrl urlStr : List Char) : Option String :=
  match parseURL urlStr with
  | some u =>
    if !listContains "asana.com".toList u.hostname then none
    else
      let segments := (splitOnChar '/' u.pathname).filter (fun seg => !seg.isEmpty)
      let numericSegments := segments.filter digitsOnly
      match numericSegments.getLast? with
      | some seg => some (String.mk seg)
      | none => fallbackScan cleanUrl
  | none => fallbackScan cleanUrl

/-- Function `extractTaskGid` from `src/types.ts`: empty input gives `none`; a
trimmed all-digit input is returned verbatim; otherwise the input (prefixed
with `https://` when it does not start with `http`) goes through the URL
branch, with the regex fallback behind it. -/
def extractTaskGid (url : String) : Option String :=
  let chars := url.toList
  if chars.isEmpty then none
  else
    let cleanUrl := trimChars chars
    if digitsOnly cleanUrl then some (String.mk cleanUrl)
    else
      let urlStr := if "http".toList.isPrefixOf cleanUrl then cleanUrl else "https://".toList ++ cleanUrl
      urlBranch cleanUrl urlStr

/-- Helper for the claimed resolver rules: the tail of an RFC 3986 scheme,
i.e. letters/digits/`+`/`-`/`.` up to a `:`. -/
def schemeTail : List Char → Bool
  | [] => false
  | c :: rest => c == ':' || ((c.isAlphanum || c == '+' || c == '-' || c == '.') && schemeTail rest)

/-- A URL scheme (RFC 3986: a letter, then letters/digits/`+`/`-`/`.`,
then `:`) is present at the start of the string. -/
def hasScheme (l : List Char) : Bool :=
  match l with
  | [] => false
  | c :: rest => c.isAlpha && schemeTail rest

/-- The resolver exactly as the claim states it (rules 1–5, first match
wins), with rule 2 reading "prefixing a default scheme when no scheme is
present".  Shares every sub-definition with `extractTaskGid`; the only
difference is the condition guarding the `https://` prefix. -/
def specResolve (url : String) : Option String :=
  let cleanUrl := trimChars url.toList
  if digitsOnly cleanUrl then some (String.mk cleanUrl)
  else
    let urlStr := if hasScheme cleanUrl then cleanUrl else "https://".toList ++ cleanUrl
    urlBranch cleanUrl urlStr

/-- The resolver as the claim reads once rule 2 is amended to what the code
does: the default scheme is prefixed exactly when the input does not start
with `http`. -/
def specResolveAmended (url : String) : Option String :=
  let cleanUrl := trimChars url.toList
  if digitsOnly cleanUrl then some (String.mk cleanUrl)
  else
    let urlStr := if "http".toList.isPrefixOf cleanUrl then cleanUrl else "https://".toList ++ cleanUrl
    urlBranch cleanUrl urlStr

/-! ## Data model (`src/types.ts` interfaces) -/

/-- Interface `AsanaUser` from `src/types.ts`. -/
structure AsanaUser where
  gid : String
  name : String
deriving Repr, DecidableEq

/-- Interface `AsanaStory` from `src/types.ts`.  The renderer guards `created_by`
with a truthiness check, so it is embedded as an `Option`. -/
structure AsanaStory where
  gid : String
  created_at : String
  created_by : Option AsanaUser
  resource_subtype : String
  text : String
deriving Repr, DecidableEq

/-- Interface `AsanaTask` from `src/types.ts`. -/
structure AsanaTask where
  gid : String
  name : String
  notes : String
  assignee : Option AsanaUser
  due_on : Option String
  completed : Bool
  permalink_url : String
deriving Repr, DecidableEq

/-- Interface `EnrichedTask` from `src/types.ts`: a task together with its retained
comment stories and its recursively enriched subtasks. -/
inductive EnrichedTask where
  | mk (task : AsanaTask) (stories : List AsanaStory) (subtasks : List EnrichedTask)

/-- The task fields of an enriched node. -/
def EnrichedTask.task : EnrichedTask → AsanaTask
  | .mk t _ _ => t

/-- The retained comment stories of an enriched node. -/
def EnrichedTask.stories : EnrichedTask → List AsanaStory
  | .mk _ s _ => s

/-- The children of an enriched node. -/
def EnrichedTask.subtasks : EnrichedTask → List EnrichedTask
  | .mk _ _ c => c

/-- Log severities of `LogEntry.type` in `src/types.ts`. -/
inductive LogType where
  | info
  | success
  | error
deriving Repr, DecidableEq

/-! ## Tree ingestion engine (`processTask`)

`processTask` performs three typed remote reads per node through
`fetchAsana` and recurses on the listed subtask gids.  The remote service
is modelled as an environment of three typed fetch functions (gid — and,
for stories, the `limit` query parameter the code hardcodes to 100 — plus
the bearer token).  The log callback is modelled as a state-passing sink
over an arbitrary state type, and the sequence of remote reads issued is
returned as an explicit trace.  The gid-driven recursion is indexed by a
fuel parameter; the fuel-exhausted outcome stands for the unbounded
recursion the source would perform on an infinitely deep service tree. -/

/-- One remote read, as identified by the request path the code builds:
`/tasks/{gid}?opt_fields=…`, `/tasks/{gid}/stories?…&limit=100`, or
`/tasks/{gid}/subtasks?opt_fields=gid,name`. -/
inductive ApiRequest where
  | task (gid : String)
  | stories (gid : String) (limit : Nat)
  | subtasks (gid : String)
deriving Repr, DecidableEq

/-- The remote service behind `fetchAsana`: each read either produces the
typed payload or fails with an error message. -/
structure AsanaEnv where
  fetchTask : String → String → Except String AsanaTask
  fetchStories : String → Nat → String → Except String (List AsanaStory)
  fetchSubtasks : String → String → Except String (List AsanaTask)

/-- Outcome of one engine invocation: the result, the final log-sink
state, and the accumulated trace of remote reads. -/
abbrev IngestOut (σ : Type) := Except String EnrichedTask × σ × List ApiRequest

/-- The depth-0 per-subtask progress log (`Processing subtask N/M: "name"`,
severity info; silent at deeper levels). -/
def progLog {σ : Type} (sink : σ → String → LogType → σ) (depth total cnt : Nat)
    (name : String) (s : σ) : σ :=
  if depth = 0 then
    sink s ("Processing subtask " ++ toString cnt ++ "/" ++ toString total ++
      ": \"" ++ name ++ "\"") .info
  else s

/-- The error-severity log emitted when a recursive child ingestion fails
(`{indent}Failed to fetch subtask {gid}: {error}`). -/
def failLog {σ : Type} (sink : σ → String → LogType → σ) (indent gid e : String) (s : σ) : σ :=
  sink s (indent ++ "Failed to fetch subtask " ++ gid ++ ": " ++ e) .error

/-- The depth-0 start-of-node log (`Fetching main task details (gid)...`). -/
def startLog {σ : Type} (sink : σ → String → LogType → σ) (depth : Nat) (gid : String) (s : σ) : σ :=
  if depth = 0 then sink s ("Fetching main task details (" ++ gid ++ ")...") .info else s

/-- The depth-0 subtask-count log (`Found N subtasks. Processing...`),
emitted only when the listing is non-empty. -/
def foundLog {σ : Type} (sink : σ → String → LogType → σ) (depth total : Nat) (s : σ) : σ :=
  if 0 < total ∧ depth = 0 then
    sink s ("Found " ++ toString total ++ " subtasks. Processing...") .info
  else s

/-- The sequential loop over the listed subtasks inside `processTask`:
count and (at depth 0) narrate progress, recursively ingest each child,
append successes to `children` in listing order, and log a caught
error-severity entry for each failed child. -/
def subtasksLoop {σ : Type} (sink : σ → String → LogType → σ)
    (rec : String → Nat → σ → List ApiRequest → IngestOut σ)
    (depth total : Nat) (indent : String) :
    List AsanaTask → Nat → List EnrichedTask → σ → List ApiRequest →
      List EnrichedTask × σ × List ApiRequest
  | [], _, children, s, reqs => (children, s, reqs)
  | sub :: rest, cnt, children, s, reqs =>
    match rec sub.gid (depth + 1) (progLog sink depth total (cnt + 1) sub.name s) reqs with
    | (.ok full, s2, reqs2) =>
      subtasksLoop sink rec depth total indent rest (cnt + 1) (children ++ [full]) s2 reqs2
    | (.error e, s2, reqs2) =>
      subtasksLoop sink rec depth total indent rest (cnt + 1) children
        (failLog sink indent sub.gid e s2) reqs2

/-- Function `processTask` from `src/types.ts`: fetch the task's metadata, its
activity stories (keeping only `resource_subtype === 'comment_added'`),
and its shallow subtask listing, then sequentially recurse on each listed
subtask, catching and logging recursive failures.  A failure of one of the
node's own three fetches is returned to the caller. -/
def processTask {σ : Type} (sink : σ → String → LogType → σ) (env : AsanaEnv) (token : String) :
    Nat → String → Nat → σ → List ApiRequest → IngestOut σ
  | 0, _, _, s, reqs => (.error "ingestion recursion fuel exhausted", s, reqs)
  | fuel + 1, taskGid, depth, s, reqs =>
    let indent := String.join (List.replicate depth "  ")
    let s := startLog sink depth taskGid s
    let reqs := reqs ++ [ApiRequest.task taskGid]
    match env.fetchTask taskGid token with
    | .error e => (.error e, s, reqs)
    | .ok task =>
      let reqs := reqs ++ [ApiRequest.stories taskGid 100]
      match env.fetchStories taskGid 100 token with
      | .error e => (.error e, s, reqs)
      | .ok stories =>
        let comments := stories.filter (fun st => st.resource_subtype == "comment_added")
        let reqs := reqs ++ [ApiRequest.subtasks taskGid]
        match env.fetchSubtasks taskGid token with
        | .error e => (.error e, s, reqs)
        | .ok subtaskList =>
          let r := subtasksLoop sink (fun g d s' r' => processTask sink env token fuel g d s' r')
            depth subtaskList.length indent subtaskList 0 []
            (foundLog sink depth subtaskList.length s) reqs
          (.ok (.mk task comments r.1), r.2.1, r.2.2)

/-- The pure result component of `processTask`: what the engine returns,
with the logging and the request trace stripped away.  Proven equal to the
first component of `processTask` for every sink (`processTask_fst`). -/
def ingestResult (env : AsanaEnv) (token : String) : Nat → String → Except String EnrichedTask
  | 0, _ => .error "ingestion recursion fuel exhausted"
  | fuel + 1, taskGid =>
    match env.fetchTask taskGid token with
    | .error e => .error e
    | .ok task =>
      match env.fetchStories taskGid 100 token with
      | .error e => .error e
      | .ok stories =>
        match env.fetchSubtasks taskGid token with
        | .error e => .error e
        | .ok subtaskList =>
          .ok (.mk task (stories.filter (fun st => st.resource_subtype == "comment_added"))
            (subtaskList.filterMap (fun sub => (ingestResult env token fuel sub.gid).toOption)))

/-- The remote reads `processTask` issues, in order.  Proven equal to the
trace component of `processTask` (`processTask_trace`). -/
def ingestTrace (env : AsanaEnv) (token : String) : Nat → String → List ApiRequest
  | 0, _ => []
  | fuel + 1, taskGid =>
    [ApiRequest.task taskGid] ++
      match env.fetchTask taskGid token with
      | .error _ => []
      | .ok _ =>
        [ApiRequest.stories taskGid 100] ++
          match env.fetchStories taskGid 100 token with
          | .error _ => []
          | .ok _ =>
            [ApiRequest.subtasks taskGid] ++
              match env.fetchSubtasks taskGid token with
              | .error _ => []
              | .ok subtaskList =>
                (subtaskList.map (fun sub => ingestTrace env token fuel sub.gid)).flatten

/-- The concrete log sink used in the log-observing theorems: a log is the
list of emitted `(message, severity)` pairs, appended in emission order. -/
def listSink (s : List (String × LogType)) (m : String) (t : LogType) : List (String × LogType) :=
  s ++ [(m, t)]

/-! ### A concrete service for ground instances

A root task with three listed subtasks whose gids are `11`, `22`, `33`;
the fetch of `22` fails, the others succeed; the root holds one comment
story and one non-comment story. -/

/-- A sample user. -/
def uA : AsanaUser := ⟨"u1", "Ada"⟩

/-- A comment-subtype story on the root. -/
def stComment : AsanaStory := ⟨"s1", "2024-01-01T10:00:00Z", some uA, "comment_added", "hello"⟩

/-- A non-comment (system) story on the root. -/
def stSystem : AsanaStory := ⟨"s2", "2024-01-02T10:00:00Z", none, "due_date_changed", "moved"⟩

/-- The root task's metadata. -/
def rootTask : AsanaTask :=
  ⟨"root", "Root", "desc", some uA, some "2024-02-01", false, "https://app.asana.com/0/1/root"⟩

/-- Full metadata of subtask `11`. -/
def taskA : AsanaTask := ⟨"11", "A", "", none, none, true, "urlA"⟩

/-- Full metadata of subtask `33`. -/
def taskC : AsanaTask := ⟨"33", "C", "", none, none, false, "urlC"⟩

/-- Shallow listing entry for subtask `11` (the listing fetch projects
`gid,name` only). -/
def listingA : AsanaTask := ⟨"11", "A", "", none, none, false, ""⟩

/-- Shallow listing entry for subtask `22`. -/
def listingB : AsanaTask := ⟨"22", "B", "", none, none, false, ""⟩

/-- Shallow listing entry for subtask `33`. -/
def listingC : AsanaTask := ⟨"33", "C", "", none, none, false, ""⟩

/-- The concrete service: root fetches succeed, the recursive fetch of
subtask `22` fails with `boom`, subtasks `11` and `33` succeed with no
stories and no further subtasks. -/
def env3 : AsanaEnv where
  fetchTask := fun g _ =>
    if g == "root" then .ok rootTask
    else if g == "11" then .ok taskA
    else if g == "33" then .ok taskC
    else .error "boom"
  fetchStories := fun g _ _ => if g == "root" then .ok [stComment, stSystem] else .ok []
  fetchSubtasks := fun g _ => if g == "root" then .ok [listingA, listingB, listingC] else .ok []

/-! ## Document renderer (`generateMarkdown`)

The browser locale formatting (`toLocaleDateString`, `toLocaleString`) is
deterministic for a fixed locale but environment-supplied; it is modelled
as a `RenderEnv` of two formatting functions.  The emoji literals appear
double-encoded in the stored source file; they are embedded here as the
characters they decode to — no claim depends on the glyphs' identity. -/

/-- The locale date/time formatters `generateMarkdown` calls. -/
structure RenderEnv where
  formatDueDate : String → String
  formatTimestamp : String → String

/-- Function `formatDate` from `src/types.ts`: `No Date` for an absent (or, by JS
truthiness, empty) date string, else the locale-formatted date. -/
def formatDate (renv : RenderEnv) : Option String → String
  | none => "No Date"
  | some d => if d = "" then "No Date" else renv.formatDueDate d

/-- Model of `s.replace(/c/g, repl)` for a single-character pattern. -/
def jsReplaceAll (pat : Char) (repl : String) (s : String) : String :=
  String.mk (s.toList.flatMap (fun c => if c == pat then repl.toList else [c]))

/-- Model of `'#'.repeat(level + 2)` — the heading marker of a subtask at nesting
`level` (level 1 renders at heading depth 3). -/
def headerHashes (level : Nat) : String :=
  String.mk (List.replicate (level + 2) '#')

/-- The `# {name}` title heading. -/
def headerSection (t : EnrichedTask) : String :=
  "# " ++ t.task.name ++ "\n\n"

/-- The root metadata block: link, assignee (ternary on presence), due
date, completion status with its two fixed markers. -/
def metaSection (renv : RenderEnv) (t : EnrichedTask) : String :=
  "**Link:** [Open in Asana](" ++ t.task.permalink_url ++ ")\n" ++
  "**Assignee:** " ++ (match t.task.assignee with
    | some a => a.name
    | none => "Unassigned") ++ " | " ++
  "**Due:** " ++ formatDate renv t.task.due_on ++ " | " ++
  "**Status:** " ++ (if t.task.completed then "✅ Completed" else "⭕ Incomplete") ++ "\n\n"

/-- The always-present Description section: the notes verbatim when
non-empty, the fixed placeholder otherwise. -/
def descriptionSection (t : EnrichedTask) : String :=
  "## Description\n\n" ++
    (if t.task.notes ≠ "" then t.task.notes ++ "\n\n" else "_No description provided._\n\n")

/-- The Comments section: present only when the root kept at least one
story; one subheading + body + rule per comment, in order. -/
def commentsSection (renv : RenderEnv) (t : EnrichedTask) : String :=
  if 0 < t.stories.length then
    "## Comments\n\n" ++ String.join (t.stories.map (fun story =>
      "### 🗣️ " ++ (match story.created_by with
        | some a => a.name
        | none => "Unknown") ++ " - " ++ renv.formatTimestamp story.created_at ++ "\n" ++
      story.text ++ "\n\n" ++ "---\n\n"))
  else ""

/-- The numbered, glyph-prefixed subtask heading line
`${'#'.repeat(level+2)} ${index+1}. ${statusIcon} ${sub.name}`. -/
def subHeading (level index : Nat) (task : AsanaTask) : String :=
  headerHashes level ++ " " ++ toString (index + 1) ++ ". " ++
    (if task.completed then "✅" else "⭕") ++ " " ++ task.name ++ "\n\n"

/-- The reduced italicised subtask metadata line (assignee via
`?.name || 'Unassigned'`, due date). -/
def subMetaLine (renv : RenderEnv) (task : AsanaTask) : String :=
  "*Assignee: " ++ (match task.assignee with
    | some a => if a.name = "" then "Unassigned" else a.name
    | none => "Unassigned") ++ " | Due: " ++ formatDate renv task.due_on ++ "*\n\n"

/-- The block-quoted subtask description, when non-empty. -/
def subNotesBlock (task : AsanaTask) : String :=
  if task.notes ≠ "" then "> " ++ jsReplaceAll '\n' "\n> " task.notes ++ "\n\n" else ""

/-- The compact subtask comment bullets, when any: one line per story,
author bolded, newlines in the body collapsed to spaces. -/
def subCommentsBlock (st : List AsanaStory) : String :=
  if 0 < st.length then
    "**Comments:**\n" ++ String.join (st.map (fun s =>
      "- **" ++ (match s.created_by with
        | some a => if a.name = "" then "Unknown" else a.name
        | none => "Unknown") ++ "**: " ++ jsReplaceAll '\n' " " s.text ++ "\n")) ++ "\n"
  else ""

mutual

/-- One subtask block of the inner `renderSubtasks` renderer: numbered
glyph-prefixed heading at depth `level + 2`, reduced metadata line,
block-quoted notes, compact comment bullets, recursive children at
`level + 1`, and a trailing blank-line spacer. -/
def renderOneSub (renv : RenderEnv) (level index : Nat) : EnrichedTask → String
  | .mk task st subs =>
    subHeading level index task ++ subMetaLine renv task ++ subNotesBlock task ++
      subCommentsBlock st ++
      (if 0 < subs.length then renderSubtasksFrom renv (level + 1) 0 subs else "") ++ "\n"

/-- The `forEach` of the inner `renderSubtasks`: render each sibling with
its 0-based position (displayed 1-based). -/
def renderSubtasksFrom (renv : RenderEnv) (level index : Nat) : List EnrichedTask → String
  | [] => ""
  | sub :: rest =>
    renderOneSub renv level index sub ++ renderSubtasksFrom renv level (index + 1) rest

end

/-- Function `renderSubtasks(subtasks, level)` from the source: the sibling list
rendered starting at position 0. -/
def renderSubtasks (renv : RenderEnv) (level : Nat) (subs : List EnrichedTask) : String :=
  renderSubtasksFrom renv level 0 subs

/-- The Subtasks section: present only when the root has children; the
recursion starts at nesting level 1. -/
def subtasksSection (renv : RenderEnv) (t : EnrichedTask) : String :=
  if 0 < t.subtasks.length then "## Subtasks\n\n" ++ renderSubtasks renv 1 t.subtasks else ""

/-- Function `generateMarkdown` from `src/types.ts`: title, metadata, description,
comments, subtasks — appended in that fixed order. -/
def generateMarkdown (renv : RenderEnv) (t : EnrichedTask) : String :=
  headerSection t ++ metaSection renv t ++ descriptionSection t ++
    commentsSection renv t ++ subtasksSection renv t

/-- A concrete render environment for ground instances: both formatters
echo their input. -/
def renvId : RenderEnv := ⟨fun d => d, fun d => d⟩

/-- A service on which every read fails. -/
def envFail : AsanaEnv :=
  ⟨fun _ _ => .error "down", fun _ _ _ => .error "down", fun _ _ => .error "down"⟩

/-- The stories the limit-honouring sample service holds per gid. -/
def holds3 : String → List AsanaStory :=
  fun g => if g == "root" then [stComment, stSystem] else []

/-- The sample service with a stories endpoint that honours the request
limit by truncation. -/
def envTake : AsanaEnv :=
  ⟨env3.fetchTask, fun g l _ => .ok ((holds3 g).take l), env3.fetchSubtasks⟩

/-- A childless, commentless, notes-less node of the concrete service. -/
def leafA : EnrichedTask := .mk taskA [] []

/-- A one-child root tree over the concrete tasks. -/
def treeOneChild : EnrichedTask := .mk rootTask [] [leafA]

/-- The later log is the earlier log plus appended entries, none of which
has success severity. -/
def NoSuccessExt (s s' : List (String × LogType)) : Prop :=
  ∃ δ, s' = s ++ δ ∧ ∀ p ∈ δ, p.2 ≠ LogType.success

/-- Predicate: `P` holds of every node of the tree: the root and every transitive
child. -/
inductive TreeAll (P : EnrichedTask → Prop) : EnrichedTask → Prop where
  | node {task : AsanaTask} {st : List AsanaStory} {subs : List EnrichedTask} :
      P (.mk task st subs) → (∀ c ∈ subs, TreeAll P c) → TreeAll P (.mk task st subs)

/-! ## Ground checks of the embedding -/

example : extractTaskGid "123456" = some "123456" := by decide
example : extractTaskGid "https://app.asana.com/0/12345/67890" = some "67890" := by decide
example : extractTaskGid "https://app.asana.com/0/12345/67890/f" = some "67890" := by decide
example : extractTaskGid "https://example.com/0/12345/67890" = none := by decide
example : extractTaskGid "some text asana.com/0/foo/42 more" = some "42" := by decide
example : extractTaskGid "" = none := by decide
example : extractTaskGid "ftp://app.asana.com/0/11/f" = none := by decide
example : specResolve "ftp://app.asana.com/0/11/f" = some "11" := by decide
example : extractTaskGid "app.asana.com/0/inbox/777" = some "777" := by decide
example : extractTaskGid "  42  " = some "42" := by decide

example :
    processTask listSink env3 "tok" 3 "root" 0 [] [] =
      (.ok (.mk rootTask [stComment] [.mk taskA [] [], .mk taskC [] []]),
        [("Fetching main task details (root)...", .info),
          ("Found 3 subtasks. Processing...", .info),
          ("Processing subtask 1/3: \"A\"", .info),
          ("Processing subtask 2/3: \"B\"", .info),
          ("Failed to fetch subtask 22: boom", .error),
          ("Processing subtask 3/3: \"C\"", .info)],
        [.task "root", .stories "root" 100, .subtasks "root",
          .task "11", .stories "11" 100, .subtasks "11",
          .task "22",
          .task "33", .stories "33" 100, .subtasks "33"]) := rfl

/-! ## Engine characterization lemmas -/

theorem subtasksLoop_children {σ : Type} (sink : σ → String → LogType → σ)
    (rec : String → Nat → σ → List ApiRequest → IngestOut σ)
    (F : String → Except String EnrichedTask)
    (hrec : ∀ g d s r, (rec g d s r).1 = F g)
    (depth total : Nat) (indent : String) :
    ∀ (l : List AsanaTask) (cnt : Nat) (children : List EnrichedTask) (s : σ)
      (reqs : List ApiRequest),
      (subtasksLoop sink rec depth total indent l cnt children s reqs).1 =
        children ++ l.filterMap (fun sub => (F sub.gid).toOption) := by
  intro l
  induction l with
  | nil => intro cnt children s reqs; simp [subtasksLoop]
  | cons sub rest ih =>
    intro cnt children s reqs
    rcases hx : rec sub.gid (depth + 1) (progLog sink depth total (cnt + 1) sub.name s) reqs
      with ⟨res, s2, reqs2⟩
    have hres : res = F sub.gid := by
      have := hrec sub.gid (depth + 1) (progLog sink depth total (cnt + 1) sub.name s) reqs
      rw [hx] at this; exact this
    cases res with
    | ok full =>
      rw [subtasksLoop, hx, ih, List.filterMap_cons, ← hres]
      simp [Except.toOption]
    | error e =>
      rw [subtasksLoop, hx, ih, List.filterMap_cons, ← hres]
      simp [Except.toOption]

theorem subtasksLoop_trace {σ : Type} (sink : σ → String → LogType → σ)
    (rec : String → Nat → σ → List ApiRequest → IngestOut σ)
    (T : String → List ApiRequest)
    (hrec : ∀ g d s r, (rec g d s r).2.2 = r ++ T g)
    (depth total : Nat) (indent : String) :
    ∀ (l : List AsanaTask) (cnt : Nat) (children : List EnrichedTask) (s : σ)
      (reqs : List ApiRequest),
      (subtasksLoop sink rec depth total indent l cnt children s reqs).2.2 =
        reqs ++ (l.map (fun sub => T sub.gid)).flatten := by
  intro l
  induction l with
  | nil => intro cnt children s reqs; simp [subtasksLoop]
  | cons sub rest ih =>
    intro cnt children s reqs
    rcases hx : rec sub.gid (depth + 1) (progLog sink depth total (cnt + 1) sub.name s) reqs
      with ⟨res, s2, reqs2⟩
    have hreqs2 : reqs2 = reqs ++ T sub.gid := by
      have := hrec sub.gid (depth + 1) (progLog sink depth total (cnt + 1) sub.name s) reqs
      rw [hx] at this; exact this
    cases res with
    | ok full => rw [subtasksLoop, hx, ih, hreqs2]; simp
    | error e => rw [subtasksLoop, hx, ih, hreqs2]; simp

theorem processTask_fst {σ : Type} (sink : σ → String → LogType → σ) (env : AsanaEnv)
    (token : String) :
    ∀ (fuel : Nat) (gid : String) (depth : Nat) (s : σ) (reqs : List ApiRequest),
      (processTask sink env token fuel gid depth s reqs).1 = ingestResult env token fuel gid := by
  intro fuel
  induction fuel with
  | zero => intro gid depth s reqs; rfl
  | succ fuel ih =>
    intro gid depth s reqs
    rw [processTask, ingestResult]
    cases h1 : env.fetchTask gid token with
    | error e => rfl
    | ok task =>
      cases h2 : env.fetchStories gid 100 token with
      | error e => rfl
      | ok stories =>
        cases h3 : env.fetchSubtasks gid token with
        | error e => rfl
        | ok subtaskList =>
          simp only []
          rw [subtasksLoop_children sink _ (ingestResult env token fuel)
            (fun g d s' r' => ih g d s' r')]
          simp

theorem processTask_trace {σ : Type} (sink : σ → String → LogType → σ) (env : AsanaEnv)
    (token : String) :
    ∀ (fuel : Nat) (gid : String) (depth : Nat) (s : σ) (reqs : List ApiRequest),
      (processTask sink env token fuel gid depth s reqs).2.2 =
        reqs ++ ingestTrace env token fuel gid := by
  intro fuel
  induction fuel with
  | zero => intro gid depth s reqs; simp [processTask, ingestTrace]
  | succ fuel ih =>
    intro gid depth s reqs
    rw [processTask, ingestTrace]
    cases h1 : env.fetchTask gid token with
    | error e => simp
    | ok task =>
      cases h2 : env.fetchStories gid 100 token with
      | error e => simp
      | ok stories =>
        cases h3 : env.fetchSubtasks gid token with
        | error e => simp
        | ok subtaskList =>
          simp only []
          rw [subtasksLoop_trace sink _ (ingestTrace env token fuel)
            (fun g d s' r' => ih g d s' r')]
          simp

theorem NoSuccessExt.rfl {s : List (String × LogType)} : NoSuccessExt s s :=
  ⟨[], by simp, by simp⟩

theorem NoSuccessExt.trans {s t u : List (String × LogType)}
    (h1 : NoSuccessExt s t) (h2 : NoSuccessExt t u) : NoSuccessExt s u := by
  obtain ⟨δ1, rfl, h1'⟩ := h1
  obtain ⟨δ2, rfl, h2'⟩ := h2
  exact ⟨δ1 ++ δ2, by simp, by
    intro p hp
    rcases List.mem_append.mp hp with h | h
    · exact h1' p h
    · exact h2' p h⟩

theorem noSuccessExt_listSink_info (s : List (String × LogType)) (m : String) :
    NoSuccessExt s (listSink s m .info) :=
  ⟨[(m, .info)], by simp [listSink], by simp⟩

theorem noSuccessExt_listSink_error (s : List (String × LogType)) (m : String) :
    NoSuccessExt s (listSink s m .error) :=
  ⟨[(m, .error)], by simp [listSink], by simp⟩

theorem noSuccessExt_progLog (depth total cnt : Nat) (name : String)
    (s : List (String × LogType)) : NoSuccessExt s (progLog listSink depth total cnt name s) := by
  unfold progLog
  split
  · exact noSuccessExt_listSink_info s _
  · exact NoSuccessExt.rfl

theorem noSuccessExt_startLog (depth : Nat) (gid : String) (s : List (String × LogType)) :
    NoSuccessExt s (startLog listSink depth gid s) := by
  unfold startLog
  split
  · exact noSuccessExt_listSink_info s _
  · exact NoSuccessExt.rfl

theorem noSuccessExt_foundLog (depth total : Nat) (s : List (String × LogType)) :
    NoSuccessExt s (foundLog listSink depth total s) := by
  unfold foundLog
  split
  · exact noSuccessExt_listSink_info s _
  · exact NoSuccessExt.rfl

theorem noSuccessExt_failLog (indent gid e : String) (s : List (String × LogType)) :
    NoSuccessExt s (failLog listSink indent gid e s) :=
  noSuccessExt_listSink_error s _

theorem subtasksLoop_logs
    (rec : String → Nat → List (String × LogType) → List ApiRequest →
      IngestOut (List (String × LogType)))
    (hrec : ∀ g d s r, NoSuccessExt s (rec g d s r).2.1)
    (depth total : Nat) (indent : String) :
    ∀ (l : List AsanaTask) (cnt : Nat) (children : List EnrichedTask)
      (s : List (String × LogType)) (reqs : List ApiRequest),
      NoSuccessExt s (subtasksLoop listSink rec depth total indent l cnt children s reqs).2.1 := by
  intro l
  induction l with
  | nil => intro cnt children s reqs; exact NoSuccessExt.rfl
  | cons sub rest ih =>
    intro cnt children s reqs
    rcases hx : rec sub.gid (depth + 1) (progLog listSink depth total (cnt + 1) sub.name s) reqs
      with ⟨res, s2, reqs2⟩
    have hs2 : NoSuccessExt s s2 := by
      have h := hrec sub.gid (depth + 1) (progLog listSink depth total (cnt + 1) sub.name s) reqs
      rw [hx] at h
      exact (noSuccessExt_progLog depth total (cnt + 1) sub.name s).trans h
    cases res with
    | ok full => rw [subtasksLoop, hx]; exact hs2.trans (ih _ _ _ _)
    | error e =>
      rw [subtasksLoop, hx]
      exact (hs2.trans (noSuccessExt_failLog indent sub.gid e s2)).trans (ih _ _ _ _)

theorem processTask_logs (env : AsanaEnv) (token : String) :
    ∀ (fuel : Nat) (gid : String) (depth : Nat) (s : List (String × LogType))
      (reqs : List ApiRequest),
      NoSuccessExt s (processTask listSink env token fuel gid depth s reqs).2.1 := by
  intro fuel
  induction fuel with
  | zero => intro gid depth s reqs; exact NoSuccessExt.rfl
  | succ fuel ih =>
    intro gid depth s reqs
    rw [processTask]
    cases h1 : env.fetchTask gid token with
    | error e => exact noSuccessExt_startLog depth gid s
    | ok task =>
      cases h2 : env.fetchStories gid 100 token with
      | error e => exact noSuccessExt_startLog depth gid s
      | ok stories =>
        cases h3 : env.fetchSubtasks gid token with
        | error e => exact noSuccessExt_startLog depth gid s
        | ok subtaskList =>
          simp only []
          exact ((noSuccessExt_startLog depth gid s).trans
            (noSuccessExt_foundLog depth subtaskList.length _)).trans
            (subtasksLoop_logs _ (fun g d s' r' => ih g d s' r') _ _ _ _ _ _ _ _)

theorem TreeAll.imp {P Q : EnrichedTask → Prop} (h : ∀ n, P n → Q n) :
    ∀ {t : EnrichedTask}, TreeAll P t → TreeAll Q t := by
  intro t ht
  induction ht with
  | node hp hsub ih => exact TreeAll.node (h _ hp) ih

theorem TreeAll.self {P : EnrichedTask → Prop} {t : EnrichedTask} (h : TreeAll P t) : P t := by
  cases h with
  | node hp _ => exact hp

/-- Every node of a tree produced by the engine carries exactly the
comment-subtype entries of some successful stories fetch, in fetch order. -/
theorem ingestResult_stories (env : AsanaEnv) (token : String) :
    ∀ (fuel : Nat) (gid : String) (t : EnrichedTask),
      ingestResult env token fuel gid = .ok t →
      TreeAll (fun n => ∃ g ss, env.fetchStories g 100 token = .ok ss ∧
        n.stories = ss.filter (fun st => st.resource_subtype == "comment_added")) t := by
  intro fuel
  induction fuel with
  | zero => intro gid t h; exact absurd h (by simp [ingestResult])
  | succ fuel ih =>
    intro gid t h
    rw [ingestResult] at h
    cases h1 : env.fetchTask gid token with
    | error e => rw [h1] at h; exact absurd h (by simp)
    | ok task =>
      rw [h1] at h
      cases h2 : env.fetchStories gid 100 token with
      | error e => rw [h2] at h; exact absurd h (by simp)
      | ok stories =>
        rw [h2] at h
        cases h3 : env.fetchSubtasks gid token with
        | error e => rw [h3] at h; exact absurd h (by simp)
        | ok subtaskList =>
          rw [h3] at h
          simp only [Except.ok.injEq] at h
          subst h
          refine TreeAll.node ⟨gid, stories, h2, rfl⟩ ?_
          intro c hc
          obtain ⟨sub, _, hsub⟩ := List.mem_filterMap.mp hc
          cases hr : ingestResult env token fuel sub.gid with
          | error e => rw [hr] at hsub; exact absurd hsub (by simp [Except.toOption])
          | ok v =>
            rw [hr] at hsub
            simp only [Except.toOption, Option.some.injEq] at hsub
            subst hsub
            exact ih sub.gid _ hr

/-- Every activity-entries request the engine ever issues carries the
fixed limit 100. -/
theorem ingestTrace_stories_limit (env : AsanaEnv) (token : String) :
    ∀ (fuel : Nat) (gid g : String) (l : Nat),
      ApiRequest.stories g l ∈ ingestTrace env token fuel gid → l = 100 := by
  intro fuel
  induction fuel with
  | zero => intro gid g l h; simp [ingestTrace] at h
  | succ fuel ih =>
    intro gid g l h
    rw [ingestTrace] at h
    cases h1 : env.fetchTask gid token with
    | error e => rw [h1] at h; simp at h
    | ok task =>
      rw [h1] at h
      cases h2 : env.fetchStories gid 100 token with
      | error e => rw [h2] at h; simp at h; exact h.2
      | ok stories =>
        rw [h2] at h
        cases h3 : env.fetchSubtasks gid token with
        | error e => rw [h3] at h; simp at h; exact h.2
        | ok subtaskList =>
          rw [h3] at h
          simp only [List.cons_append, List.nil_append, List.mem_cons, List.mem_flatten,
            List.mem_map] at h
          rcases h with h | h | h | ⟨tr, ⟨sub, _, rfl⟩, hmem⟩
          · exact absurd h (by simp)
          · exact (ApiRequest.stories.injEq _ _ _ _).mp h |>.2
          · exact absurd h (by simp)
          · exact ih sub.gid g l hmem

/-- When the service honours the request limit (returning the first
`limit` entries it holds), every node's retained stories are the
comment-subtype entries among the first 100 it holds, and in particular at
most 100 entries long. -/
theorem ingestResult_take100 (env : AsanaEnv) (token : String)
    (holds : String → List AsanaStory)
    (henv : ∀ g l tk, env.fetchStories g l tk = .ok ((holds g).take l)) :
    ∀ (fuel : Nat) (gid : String) (t : EnrichedTask),
      ingestResult env token fuel gid = .ok t →
      TreeAll (fun n =>
        (∃ g, n.stories =
          ((holds g).take 100).filter (fun st => st.resource_subtype == "comment_added")) ∧
        n.stories.length ≤ 100) t := by
  intro fuel gid t h
  refine (ingestResult_stories env token fuel gid t h).imp ?_
  rintro n ⟨g, ss, hfetch, hst⟩
  have hss : ss = (holds g).take 100 := by
    have := henv g 100 token
    rw [hfetch] at this
    exact (Except.ok.injEq _ _).mp this
  subst hss
  refine ⟨⟨g, hst⟩, ?_⟩
  rw [hst]
  exact le_trans (List.length_filter_le _ _) (le_trans (List.length_take_le _ _) (by omega))

/-! ## Resolver lemmas -/

theorem digitsOnly_spec {l : List Char} (h : digitsOnly l = true) :
    l ≠ [] ∧ l.all Char.isDigit = true := by
  unfold digitsOnly at h
  simp only [Bool.and_eq_true, Bool.not_eq_true'] at h
  exact ⟨by simpa using h.1, h.2⟩

theorem stringMk_ne_empty {l : List Char} (h : l ≠ []) : String.mk l ≠ "" := by
  simpa [String.ext_iff] using h

theorem fallbackMatchAt_digits {l : List Char} {g : String}
    (h : fallbackMatchAt l = some g) : g ≠ "" ∧ g.toList.all Char.isDigit = true := by
  unfold fallbackMatchAt at h
  split at h
  · simp only at h
    split at h
    · exact absurd h (by simp)
    · split at h
      · split at h
        · exact absurd h (by simp)
        · rename_i r2 hds
          obtain rfl : String.mk _ = g := Option.some.injEq _ _ ▸ h
          refine ⟨stringMk_ne_empty (by simpa using hds), ?_⟩
          simp only [String.toList, List.all_eq_true]
          intro c hc
          exact List.mem_takeWhile_imp hc
      · exact absurd h (by simp)
  · exact absurd h (by simp)

theorem fallbackScan_digits : ∀ {l : List Char} {g : String},
    fallbackScan l = some g → g ≠ "" ∧ g.toList.all Char.isDigit = true := by
  intro l
  induction l with
  | nil => intro g h; exact absurd h (by simp [fallbackScan])
  | cons c rest ih =>
    intro g h
    rw [fallbackScan] at h
    cases hm : fallbackMatchAt (c :: rest) with
    | some d => rw [hm] at h; cases h; exact fallbackMatchAt_digits hm
    | none => rw [hm] at h; exact ih h

theorem urlBranch_digits {c u : List Char} {g : String}
    (h : urlBranch c u = some g) : g ≠ "" ∧ g.toList.all Char.isDigit = true := by
  unfold urlBranch at h
  cases hp : parseURL u with
  | none => rw [hp] at h; simp only at h; exact fallbackScan_digits h
  | some pu =>
    rw [hp] at h
    simp only at h
    split at h
    · exact absurd h (by simp)
    · split at h
      · rename_i seg heq
        obtain rfl : String.mk seg = g := Option.some.injEq _ _ ▸ h
        have hmem := List.mem_of_getLast?_eq_some heq
        have hdig : digitsOnly seg = true := (List.mem_filter.mp hmem).2
        obtain ⟨h1, h2⟩ := digitsOnly_spec hdig
        exact ⟨stringMk_ne_empty h1, h2⟩
      · exact fallbackScan_digits h

/-- C9: the resolver is total by construction, and every identifier it
returns satisfies the TaskId invariant: non-empty and entirely numeric. -/
theorem c9_extractTaskGid_taskId_invariant :
    ∀ (s gid : String), extractTaskGid s = some gid →
      gid ≠ "" ∧ gid.toList.all Char.isDigit = true := by
  intro s gid h
  unfold extractTaskGid at h
  simp only at h
  split at h
  · exact absurd h (by simp)
  · split at h
    · rename_i hd
      obtain rfl : String.mk _ = gid := Option.some.injEq _ _ ▸ h
      obtain ⟨h1, h2⟩ := digitsOnly_spec hd
      exact ⟨stringMk_ne_empty h1, h2⟩
    · exact urlBranch_digits h

/-- C9 witness: the invariant instantiated at input `  42  `. -/
theorem c9_witness : ("42" : String) ≠ "" ∧ "42".toList.all Char.isDigit = true :=
  c9_extractTaskGid_taskId_invariant "  42  " "42" (by decide)

/-- C3 counterexample: on `ftp://app.asana.com/0/11/f` — a scheme is
present, so the claimed rules parse it as a URL, accept the host and
return the last numeric segment `11` — but the code checks
`startsWith('http')`, mangles the input to `https://ftp://…`, rejects the
host `ftp` and returns NotFound. -/
theorem c3_counterexample :
    extractTaskGid "ftp://app.asana.com/0/11/f" = none ∧
      specResolve "ftp://app.asana.com/0/11/f" = some "11" :=
  ⟨by decide, by decide⟩

/-- C3 (amended): the resolver applies the claimed rules in order, first
match wins, once rule 2's condition reads "prefixing the default scheme
when the input does not start with http" (instead of "when no scheme is
present"); concretely, path `/0/12345/67890` resolves to `67890` and a
trailing non-numeric segment `/f` is ignored. -/
theorem c3_extractTaskGid_rules :
    (∀ s : String, extractTaskGid s = specResolveAmended s) ∧
      extractTaskGid "https://app.asana.com/0/12345/67890" = some "67890" ∧
      extractTaskGid "https://app.asana.com/0/12345/67890/f" = some "67890" := by
  refine ⟨?_, by decide, by decide⟩
  intro s
  unfold extractTaskGid specResolveAmended
  cases h : s.toList.isEmpty with
  | true =>
    have hs : s.toList = [] := by simpa using h
    rw [hs]
    rfl
  | false =>
    simp only
    rw [if_neg (show ¬(s.toList.isEmpty = true) from fun hh => by
      rw [hh] at h; exact Bool.noConfusion h)]

/-! ## Claim theorems: ingestion engine -/

/-- C1: when a node's own three fetches succeed, a failing recursive child
ingestion is caught at the recursive call — the failed child is absent
from `subtasks`, the surviving siblings appear in original listing order,
and the node still returns successfully; concretely, the three-subtask
service `env3` with one failing child yields two children in order and
exactly one error-severity log entry naming the failing gid `22`. -/
theorem c1_child_failure_tolerated :
    (∀ (σ : Type) (sink : σ → String → LogType → σ) (env : AsanaEnv) (token : String)
      (fuel : Nat) (gid : String) (depth : Nat) (s : σ) (reqs : List ApiRequest)
      (task : AsanaTask) (stories : List AsanaStory) (subs : List AsanaTask),
      env.fetchTask gid token = .ok task →
      env.fetchStories gid 100 token = .ok stories →
      env.fetchSubtasks gid token = .ok subs →
      (processTask sink env token (fuel + 1) gid depth s reqs).1 =
        .ok (.mk task (stories.filter (fun st => st.resource_subtype == "comment_added"))
          (subs.filterMap (fun sub => (ingestResult env token fuel sub.gid).toOption)))) ∧
    (processTask listSink env3 "tok" 3 "root" 0 [] []).1 =
      .ok (.mk rootTask [stComment] [.mk taskA [] [], .mk taskC [] []]) ∧
    (processTask listSink env3 "tok" 3 "root" 0 [] []).2.1.filter
        (fun p => p.2 == LogType.error) =
      [("Failed to fetch subtask 22: boom", LogType.error)] := by
  refine ⟨?_, rfl, rfl⟩
  intro σ sink env token fuel gid depth s reqs task stories subs h1 h2 h3
  rw [processTask_fst, ingestResult, h1, h2, h3]

/-- C1 witness: the general part instantiated at the concrete service. -/
theorem c1_witness :
    (processTask listSink env3 "tok" 3 "root" 0 [] []).1 =
      .ok (.mk rootTask
        ([stComment, stSystem].filter (fun st => st.resource_subtype == "comment_added"))
        ([listingA, listingB, listingC].filterMap
          (fun sub => (ingestResult env3 "tok" 2 sub.gid).toOption))) :=
  c1_child_failure_tolerated.1 _ listSink env3 "tok" 2 "root" 0 [] [] rootTask
    [stComment, stSystem] [listingA, listingB, listingC] rfl rfl rfl

/-- C2: a failure of any of the root node's own three reads (task
metadata, activity entries, subtask listing) is returned uncaught with the
same error, and an engine run never emits a success-severity log entry. -/
theorem c2_root_failure_propagates :
    (∀ (σ : Type) (sink : σ → String → LogType → σ) (env : AsanaEnv) (token : String)
      (fuel : Nat) (gid : String) (depth : Nat) (s : σ) (reqs : List ApiRequest) (e : String),
      env.fetchTask gid token = .error e →
      (processTask sink env token (fuel + 1) gid depth s reqs).1 = .error e) ∧
    (∀ (σ : Type) (sink : σ → String → LogType → σ) (env : AsanaEnv) (token : String)
      (fuel : Nat) (gid : String) (depth : Nat) (s : σ) (reqs : List ApiRequest)
      (task : AsanaTask) (e : String),
      env.fetchTask gid token = .ok task →
      env.fetchStories gid 100 token = .error e →
      (processTask sink env token (fuel + 1) gid depth s reqs).1 = .error e) ∧
    (∀ (σ : Type) (sink : σ → String → LogType → σ) (env : AsanaEnv) (token : String)
      (fuel : Nat) (gid : String) (depth : Nat) (s : σ) (reqs : List ApiRequest)
      (task : AsanaTask) (stories : List AsanaStory) (e : String),
      env.fetchTask gid token = .ok task →
      env.fetchStories gid 100 token = .ok stories →
      env.fetchSubtasks gid token = .error e →
      (processTask sink env token (fuel + 1) gid depth s reqs).1 = .error e) ∧
    (∀ (env : AsanaEnv) (token : String) (fuel : Nat) (gid : String) (depth : Nat)
      (reqs : List ApiRequest),
      (processTask listSink env token fuel gid depth [] reqs).2.1.filter
        (fun p => p.2 == LogType.success) = []) := by
  refine ⟨?_, ?_, ?_, ?_⟩
  · intro σ sink env token fuel gid depth s reqs e h1
    rw [processTask_fst, ingestResult, h1]
  · intro σ sink env token fuel gid depth s reqs task e h1 h2
    rw [processTask_fst, ingestResult, h1, h2]
  · intro σ sink env token fuel gid depth s reqs task stories e h1 h2 h3
    rw [processTask_fst, ingestResult, h1, h2, h3]
  · intro env token fuel gid depth reqs
    obtain ⟨δ, hδ, hn⟩ := processTask_logs env token fuel gid depth [] reqs
    rw [hδ, List.nil_append, List.filter_eq_nil_iff]
    intro p hp
    simpa using hn p hp

/-- C2 witness: root metadata failure propagated, zero success entries. -/
theorem c2_witness :
    (processTask listSink envFail "tok" 1 "root" 0 [] []).1 = .error "down" ∧
      (processTask listSink envFail "tok" 1 "root" 0 [] []).2.1.filter
        (fun p => p.2 == LogType.success) = [] :=
  ⟨c2_root_failure_propagates.1 _ listSink envFail "tok" 0 "root" 0 [] [] "down" rfl,
    c2_root_failure_propagates.2.2.2 envFail "tok" 1 "root" 0 []⟩

/-- C4: a root whose subtask listing is empty yields an enriched task with
no children, and the run issues exactly the three reads — task metadata,
activity entries, subtask listing — in that order. -/
theorem c4_empty_listing_three_reads :
    ∀ (σ : Type) (sink : σ → String → LogType → σ) (env : AsanaEnv) (token : String)
      (fuel : Nat) (gid : String) (depth : Nat) (s : σ) (reqs : List ApiRequest)
      (task : AsanaTask) (stories : List AsanaStory),
      env.fetchTask gid token = .ok task →
      env.fetchStories gid 100 token = .ok stories →
      env.fetchSubtasks gid token = .ok [] →
      (processTask sink env token (fuel + 1) gid depth s reqs).1 =
        .ok (.mk task (stories.filter (fun st => st.resource_subtype == "comment_added")) []) ∧
      (processTask sink env token (fuel + 1) gid depth s reqs).2.2 =
        reqs ++ [.task gid, .stories gid 100, .subtasks gid] := by
  intro σ sink env token fuel gid depth s reqs task stories h1 h2 h3
  constructor
  · rw [processTask_fst, ingestResult, h1, h2, h3]
    simp
  · rw [processTask_trace, ingestTrace, h1, h2, h3]
    simp

/-- C4 witness: instantiated at subtask `11` of the concrete service. -/
theorem c4_witness :
    (processTask listSink env3 "tok" 1 "11" 0 [] []).1 =
      .ok (.mk taskA (List.filter (fun st => st.resource_subtype == "comment_added") []) []) ∧
      (processTask listSink env3 "tok" 1 "11" 0 [] []).2.2 =
        [] ++ [.task "11", .stories "11" 100, .subtasks "11"] :=
  c4_empty_listing_three_reads _ listSink env3 "tok" 0 "11" 0 [] [] taskA [] rfl rfl rfl

/-- C5: every node of a tree the engine returns carries exactly the
comment-subtype entries of its stories fetch, in fetch order, and no node
anywhere in the tree retains an entry of any other subtype. -/
theorem c5_comments_filter_invariant :
    ∀ (σ : Type) (sink : σ → String → LogType → σ) (env : AsanaEnv) (token : String)
      (fuel : Nat) (gid : String) (depth : Nat) (s : σ) (reqs : List ApiRequest)
      (t : EnrichedTask),
      (processTask sink env token fuel gid depth s reqs).1 = .ok t →
      TreeAll (fun n => ∃ g ss, env.fetchStories g 100 token = .ok ss ∧
        n.stories = ss.filter (fun st => st.resource_subtype == "comment_added")) t ∧
      TreeAll (fun n => ∀ st ∈ n.stories, st.resource_subtype = "comment_added") t := by
  intro σ sink env token fuel gid depth s reqs t h
  rw [processTask_fst] at h
  refine ⟨ingestResult_stories env token fuel gid t h,
    (ingestResult_stories env token fuel gid t h).imp ?_⟩
  rintro n ⟨g, ss, hf, hst⟩ st hm
  rw [hst] at hm
  simpa using (List.mem_filter.mp hm).2

/-- C5 witness: the invariant on the tree ingested from the concrete
service (whose raw root fetch also contains a non-comment story). -/
theorem c5_witness :
    TreeAll (fun n => ∃ g ss, env3.fetchStories g 100 "tok" = .ok ss ∧
        n.stories = ss.filter (fun st => st.resource_subtype == "comment_added"))
      (.mk rootTask [stComment] [.mk taskA [] [], .mk taskC [] []]) ∧
    TreeAll (fun n => ∀ st ∈ n.stories, st.resource_subtype = "comment_added")
      (.mk rootTask [stComment] [.mk taskA [] [], .mk taskC [] []]) :=
  c5_comments_filter_invariant _ listSink env3 "tok" 3 "root" 0 [] []
    (.mk rootTask [stComment] [.mk taskA [] [], .mk taskC [] []]) rfl

/-- C8: the tree the engine returns is the same under any two log sinks
over any two state types and initial states — logging never influences
the result. -/
theorem c8_logging_noninterference :
    ∀ (σ τ : Type) (sink1 : σ → String → LogType → σ) (sink2 : τ → String → LogType → τ)
      (env : AsanaEnv) (token : String) (fuel : Nat) (gid : String) (depth : Nat)
      (s1 : σ) (s2 : τ) (r1 r2 : List ApiRequest),
      (processTask sink1 env token fuel gid depth s1 r1).1 =
        (processTask sink2 env token fuel gid depth s2 r2).1 := by
  intro σ τ sink1 sink2 env token fuel gid depth s1 s2 r1 r2
  rw [processTask_fst, processTask_fst]

/-- C10: the engine's remote reads are exactly `ingestTrace`; every
activity-entries request it ever issues carries the fixed limit 100; a
node whose fetches succeed issues exactly one such request (between its
metadata and listing reads) followed by its children's reads; and against
a service that honours the limit, every node's retained stories come from
the first 100 entries the service holds, so no node keeps more than 100. -/
theorem c10_stories_limit_100 :
    (∀ (σ : Type) (sink : σ → String → LogType → σ) (env : AsanaEnv) (token : String)
      (fuel : Nat) (gid : String) (depth : Nat) (s : σ) (reqs : List ApiRequest),
      (processTask sink env token fuel gid depth s reqs).2.2 =
        reqs ++ ingestTrace env token fuel gid) ∧
    (∀ (env : AsanaEnv) (token : String) (fuel : Nat) (gid g : String) (l : Nat),
      ApiRequest.stories g l ∈ ingestTrace env token fuel gid → l = 100) ∧
    (∀ (env : AsanaEnv) (token : String) (fuel : Nat) (gid : String)
      (task : AsanaTask) (stories : List AsanaStory) (subs : List AsanaTask),
      env.fetchTask gid token = .ok task →
      env.fetchStories gid 100 token = .ok stories →
      env.fetchSubtasks gid token = .ok subs →
      ingestTrace env token (fuel + 1) gid =
        [.task gid, .stories gid 100, .subtasks gid] ++
          (subs.map (fun sub => ingestTrace env token fuel sub.gid)).flatten) ∧
    (∀ (σ : Type) (sink : σ → String → LogType → σ) (env : AsanaEnv) (token : String)
      (holds : String → List AsanaStory),
      (∀ g l tk, env.fetchStories g l tk = .ok ((holds g).take l)) →
      ∀ (fuel : Nat) (gid : String) (depth : Nat) (s : σ) (reqs : List ApiRequest)
        (t : EnrichedTask),
        (processTask sink env token fuel gid depth s reqs).1 = .ok t →
        TreeAll (fun n =>
          (∃ g, n.stories =
            ((holds g).take 100).filter (fun st => st.resource_subtype == "comment_added")) ∧
          n.stories.length ≤ 100) t) := by
  refine ⟨?_, ?_, ?_, ?_⟩
  · intro σ sink env token fuel gid depth s reqs
    exact processTask_trace sink env token fuel gid depth s reqs
  · intro env token fuel gid g l h
    exact ingestTrace_stories_limit env token fuel gid g l h
  · intro env token fuel gid task stories subs h1 h2 h3
    rw [ingestTrace, h1, h2, h3]
    simp
  · intro σ sink env token holds henv fuel gid depth s reqs t h
    rw [processTask_fst] at h
    exact ingestResult_take100 env token holds henv fuel gid t h

/-- C10 witness: the limit-100 facts instantiated at the concrete
services. -/
theorem c10_witness :
    (100 = 100) ∧
    ingestTrace env3 "tok" 3 "root" =
      [.task "root", .stories "root" 100, .subtasks "root"] ++
        ([listingA, listingB, listingC].map
          (fun sub => ingestTrace env3 "tok" 2 sub.gid)).flatten ∧
    TreeAll (fun n =>
        (∃ g, n.stories =
          ((holds3 g).take 100).filter (fun st => st.resource_subtype == "comment_added")) ∧
        n.stories.length ≤ 100)
      (.mk rootTask [stComment] [.mk taskA [] [], .mk taskC [] []]) :=
  ⟨c10_stories_limit_100.2.1 env3 "tok" 3 "root" "root" 100 (by decide),
    c10_stories_limit_100.2.2.1 env3 "tok" 2 "root" rootTask [stComment, stSystem]
      [listingA, listingB, listingC] rfl rfl rfl,
    c10_stories_limit_100.2.2.2 _ listSink envTake "tok" holds3 (fun g l tk => rfl) 3 "root" 0 [] []
      (.mk rootTask [stComment] [.mk taskA [] [], .mk taskC [] []]) rfl⟩

/-! ## Claim theorems: document renderer -/

/-- C6: the renderer omits the Comments section exactly when the root has
no retained comments and the Subtasks section exactly when it has no
children (with no comments and no children the document is just title,
metadata and description), while the Description section is always
emitted: the notes verbatim when non-empty, the fixed placeholder when
empty. -/
theorem c6_section_presence :
    ∀ (renv : RenderEnv) (t : EnrichedTask),
      (t.stories = [] → commentsSection renv t = "") ∧
      (t.subtasks = [] → subtasksSection renv t = "") ∧
      (t.stories = [] → t.subtasks = [] →
        generateMarkdown renv t =
          headerSection t ++ metaSection renv t ++ descriptionSection t) ∧
      (t.task.notes = "" →
        descriptionSection t = "## Description\n\n_No description provided._\n\n") ∧
      (t.task.notes ≠ "" →
        descriptionSection t = "## Description\n\n" ++ t.task.notes ++ "\n\n") ∧
      (∃ pre post, generateMarkdown renv t = pre ++ (descriptionSection t ++ post)) := by
  intro renv t
  refine ⟨?_, ?_, ?_, ?_, ?_, ?_⟩
  · intro h; simp [commentsSection, h]
  · intro h; simp [subtasksSection, h]
  · intro h1 h2
    simp [generateMarkdown, commentsSection, subtasksSection, h1, h2]
  · intro h; simp [descriptionSection, h]
  · intro h; simp [descriptionSection, h, String.append_assoc]
  · exact ⟨headerSection t ++ metaSection renv t,
      commentsSection renv t ++ subtasksSection renv t,
      by simp [generateMarkdown, String.append_assoc]⟩

/-- C6 witness: section presence at the concrete leaf node. -/
theorem c6_witness :
    commentsSection renvId leafA = "" ∧
    subtasksSection renvId leafA = "" ∧
    generateMarkdown renvId leafA =
      headerSection leafA ++ metaSection renvId leafA ++ descriptionSection leafA ∧
    descriptionSection leafA = "## Description\n\n_No description provided._\n\n" :=
  ⟨(c6_section_presence renvId leafA).1 rfl,
    (c6_section_presence renvId leafA).2.1 rfl,
    (c6_section_presence renvId leafA).2.2.1 rfl rfl,
    (c6_section_presence renvId leafA).2.2.2.1 rfl⟩

/-- C7: a subtask at nesting level `L` renders as a block opened by the
heading `subHeading`, whose marker is `L + 2` hash characters (so level-1
children head at depth 3) — a length strictly increasing in the level —
numbered by its 1-based sibling position and prefixed by the completion
glyph; siblings advance the position by one, children recurse at level
`L + 1`, and the Subtasks section starts the recursion at level 1,
position 0 (displayed 1). -/
theorem c7_heading_depth_strictly_increases :
    (∀ (renv : RenderEnv) (level index : Nat) (task : AsanaTask)
      (st : List AsanaStory) (subs : List EnrichedTask),
      renderOneSub renv level index (.mk task st subs) =
        subHeading level index task ++ subMetaLine renv task ++ subNotesBlock task ++
          subCommentsBlock st ++
          (if 0 < subs.length then renderSubtasksFrom renv (level + 1) 0 subs else "") ++ "\n") ∧
    (∀ (level index : Nat) (task : AsanaTask),
      subHeading level index task =
        headerHashes level ++ " " ++ toString (index + 1) ++ ". " ++
          (if task.completed then "✅" else "⭕") ++ " " ++ task.name ++ "\n\n") ∧
    (∀ level : Nat, (headerHashes level).length = level + 2) ∧
    (∀ l1 l2 : Nat, l1 < l2 → (headerHashes l1).length < (headerHashes l2).length) ∧
    (∀ (renv : RenderEnv) (level index : Nat) (sub : EnrichedTask) (rest : List EnrichedTask),
      renderSubtasksFrom renv level index (sub :: rest) =
        renderOneSub renv level index sub ++ renderSubtasksFrom renv level (index + 1) rest) ∧
    (∀ (renv : RenderEnv) (level : Nat) (subs : List EnrichedTask),
      renderSubtasks renv level subs = renderSubtasksFrom renv level 0 subs) ∧
    (∀ (renv : RenderEnv) (t : EnrichedTask), 0 < t.subtasks.length →
      subtasksSection renv t = "## Subtasks\n\n" ++ renderSubtasks renv 1 t.subtasks) := by
  refine ⟨?_, ?_, ?_, ?_, ?_, ?_, ?_⟩
  · intro renv level index task st subs
    rw [renderOneSub]
  · intro level index task
    rfl
  · intro level
    simp [headerHashes, String.length]
  · intro l1 l2 h
    simp only [headerHashes, String.length]
    simpa using by omega
  · intro renv level index sub rest
    rw [renderSubtasksFrom]
  · intro renv level subs
    rfl
  · intro renv t h
    simp [subtasksSection, h]

/-- C7 witness: the heading-structure facts at concrete levels and the
concrete one-child tree. -/
theorem c7_witness :
    renderOneSub renvId 1 0 (.mk taskA [] []) =
      subHeading 1 0 taskA ++ subMetaLine renvId taskA ++ subNotesBlock taskA ++
        subCommentsBlock [] ++
        (if 0 < ([] : List EnrichedTask).length then renderSubtasksFrom renvId 2 0 [] else "") ++
        "\n" ∧
    (headerHashes 1).length = 3 ∧
    (headerHashes 1).length < (headerHashes 2).length ∧
    subtasksSection renvId treeOneChild =
      "## Subtasks\n\n" ++ renderSubtasks renvId 1 treeOneChild.subtasks :=
  ⟨c7_heading_depth_strictly_increases.1 renvId 1 0 taskA [] [],
    c7_heading_depth_strictly_increases.2.2.1 1,
    c7_heading_depth_strictly_increases.2.2.2.1 1 2 (by omega),
    c7_heading_depth_strictly_increases.2.2.2.2.2.2 renvId treeOneChild (by decide)⟩

end AsanaIngest
